import Mathlib

/-!
Shallow embedding of the Notification Service pipeline from
`Design problems/03. Notification Service/notification_service.py`.

Modelling choices, each reflecting a concrete feature of the Python source:

* `datetime.now().timestamp()` is modelled by a `Nat`-valued logical clock:
  every call site that evaluates the current time receives the clock value and
  the clock advances by one per `get_notification` call, so two distinct read
  calls may observe distinct times (as two `datetime.now()` calls do).
* Python exceptions are modelled with `Except String` for single calls, and
  with an `Effects` record (performed events, final clock, optional escaped
  exception) for loops, because the prints performed before an exception
  persist even when the exception escapes.
* `NotificationCenter.__init__` annotates `self._notification: Notification`
  but never assigns it, so the field is modelled as `Option Notification`
  starting at `none`; reading it unset is the `AttributeError` Python raises.
* Python is duck-typed: any object with an `update` method can be attached to
  the center and any object with a `send_notification` method can be added to
  the engine. `Reactor.failing` and `NotificationStrategy.failing` model such
  external objects whose method raises; the concrete classes of the source
  (`NotificationLogger`, `NotificationEngine`, `EmailNotification`,
  `SMSNotification`, `PopupNotification`) never raise once content is set.
* Structural equality on `Reactor` models the object identity Python uses in
  the membership test of `attach` and the removal of `detach`: equal values
  stand for the same attached object.
-/

namespace NotifSvc

/-- The `Notification` hierarchy: `simple` is `SimpleNotification(text)`,
`plainDec` is a bare `NotificationDecorator(n)`, `timeStamp` is
`TimeStampDecorator(n)`, `signature` is `SignatureDecorator(n)`. -/
inductive Notification where
  | simple (text : String)
  | plainDec (inner : Notification)
  | timeStamp (inner : Notification)
  | signature (inner : Notification)
deriving DecidableEq

/-- `get_content`, with `now` the current value of the clock standing for
`datetime.now().timestamp()`:
`SimpleNotification.get_content` returns `self.msg`;
`NotificationDecorator.get_content` delegates;
`TimeStampDecorator.get_content` returns an f-string with the fresh timestamp
and the wrapped content; `SignatureDecorator.get_content` appends the fixed
signature text. -/
def Notification.get_content : Notification → Nat → String
  | .simple text, _ => text
  | .plainDec inner, now => inner.get_content now
  | .timeStamp inner, now => "<< " ++ toString now ++ " :: " ++ inner.get_content now
  | .signature inner, now => inner.get_content now ++ " :: signed_by: Notification Service >>"

/-- True when the decoration chain contains no `TimeStampDecorator`, the one
decorator whose output depends on the time of the call. -/
def Notification.noTimeStamp : Notification → Bool
  | .simple _ => true
  | .plainDec inner => inner.noTimeStamp
  | .timeStamp _ => false
  | .signature inner => inner.noTimeStamp

/-- The `NotificationStrategy` hierarchy. `email`, `sms`, `popup` are the three
concrete classes of the source, each holding its destination field; their
`send_notification` only prints, so it never raises. `failing` models an
externally supplied strategy object whose `send_notification` raises (the
"fake failing channel" a delivery-failure test attaches). -/
inductive NotificationStrategy where
  | email (email_id : String)
  | sms (mobile_no : String)
  | popup
  | failing (name : String)
deriving DecidableEq

/-- `send_notification(msg)`: returns the printed line, or the escaped
exception for the failing test double. -/
def NotificationStrategy.send_notification : NotificationStrategy → String → Except String String
  | .email e, msg => .ok ("Sending Email to " ++ e ++ " with notification message: " ++ msg)
  | .sms m, msg => .ok ("Sending SMS to " ++ m ++ " with notification message: " ++ msg)
  | .popup, msg => .ok ("Triggering Popup with notification message: " ++ msg)
  | .failing name, _ => .error ("DeliveryFailure: " ++ name)

/-- True exactly for the failing test double; the three concrete strategies of
the source never raise. -/
def NotificationStrategy.isFailing : NotificationStrategy → Bool
  | .failing _ => true
  | _ => false

/-- The observers attachable to the center: `logger` is `NotificationLogger`
(its center reference is passed at update time), `engine ss` is a
`NotificationEngine` holding the strategy list `ss` built by
`add_notification_strategy` appends, and `failing` models an external observer
object whose `update` raises (a reactor-failure test double). -/
inductive Reactor where
  | logger
  | engine (strategies : List NotificationStrategy)
  | failing (name : String)
deriving DecidableEq

/-- Observable events of one run: `got msg` is one `get_notification()` call on
the center returning `msg`; `logged msg` is the logger's print; `delivered s
msg` is strategy `s`'s `send_notification(msg)` print. -/
inductive Event where
  | got (msg : String)
  | logged (msg : String)
  | delivered (channel : NotificationStrategy) (msg : String)
deriving DecidableEq

/-- True on `got` events, the reads of the hub's current content. -/
def Event.isGot : Event → Bool
  | .got _ => true
  | _ => false

/-- The outcome of running a (possibly raising) piece of Python: the events
performed before any exception, the clock afterwards, and the escaped
exception if one escaped. -/
structure Effects where
  events : List Event
  clock : Nat
  err : Option String
deriving DecidableEq

/-- `NotificationCenter` state: `self._observers` (a list, notification order =
insertion order) and `self._notification`, which `__init__` only annotates, so
it is `none` until the first `set_notification`. -/
structure NotificationCenter where
  observers : List Reactor
  notification : Option Notification
deriving DecidableEq

/-- `NotificationCenter.__init__`: empty observer list, `_notification` left
unassigned. -/
def NotificationCenter.init : NotificationCenter := ⟨[], none⟩

/-- `attach(observer)`: `if observer not in self._observers:
self._observers.append(observer)`. -/
def NotificationCenter.attach (c : NotificationCenter) (ob : Reactor) : NotificationCenter :=
  if ob ∈ c.observers then c else { c with observers := c.observers ++ [ob] }

/-- Python's `list.remove(x)`: removes the first element equal to `x`, or
reports the `ValueError` it raises when no element matches. -/
def removeFirst (ob : Reactor) : List Reactor → Option (List Reactor)
  | [] => none
  | x :: xs => if x = ob then some xs else (removeFirst ob xs).map (fun l => x :: l)

/-- `detach(observer)`: `self._observers.remove(observer)`, which raises
`ValueError` when the observer is absent. -/
def NotificationCenter.detach (c : NotificationCenter) (ob : Reactor) :
    Except String NotificationCenter :=
  match removeFirst ob c.observers with
  | some l => .ok { c with observers := l }
  | none => .error "ValueError"

/-- `get_notification()`: `return self._notification.get_content()`; raises
`AttributeError` when `_notification` was never assigned. -/
def NotificationCenter.get_notification (c : NotificationCenter) (now : Nat) :
    Except String String :=
  match c.notification with
  | some n => .ok (n.get_content now)
  | none => .error "AttributeError"

/-- The body of `NotificationEngine.update`: `for ns in strategies: msg =
center.get_notification(); ns.send_notification(msg)`. Note the read happens
inside the loop, once per strategy, each read at its own clock value; an
exception from either call escapes, keeping the events already performed. -/
def engineLoop (c : NotificationCenter) : List NotificationStrategy → Nat → Effects
  | [], t => ⟨[], t, none⟩
  | ns :: rest, t =>
    match c.get_notification t with
    | .error e => ⟨[], t, some e⟩
    | .ok msg =>
      match ns.send_notification msg with
      | .error e => ⟨[Event.got msg], t, some e⟩
      | .ok _ =>
        let r := engineLoop c rest (t + 1)
        ⟨Event.got msg :: Event.delivered ns msg :: r.events, r.clock, r.err⟩

/-- `update()` of each observer. `NotificationLogger.update` reads the center
once and prints the log line; `NotificationEngine.update` is `engineLoop`; the
failing test double raises immediately. -/
def Reactor.update (r : Reactor) (c : NotificationCenter) (t : Nat) : Effects :=
  match r with
  | .logger =>
    match c.get_notification t with
    | .error e => ⟨[], t + 1, some e⟩
    | .ok msg => ⟨[Event.got msg, Event.logged msg], t + 1, none⟩
  | .engine ss => engineLoop c ss t
  | .failing name => ⟨[], t, some ("ReactorFailure: " ++ name)⟩

/-- The body of `NotificationCenter.notify`: `for ob in self._observers:
ob.update()`, with no try/except, so the first escaping exception aborts the
loop and escapes from `notify`. -/
def notifyLoop (c : NotificationCenter) : List Reactor → Nat → Effects
  | [], t => ⟨[], t, none⟩
  | ob :: rest, t =>
    let r := ob.update c t
    match r.err with
    | some e => ⟨r.events, r.clock, some e⟩
    | none =>
      let r2 := notifyLoop c rest r.clock
      ⟨r.events ++ r2.events, r2.clock, r2.err⟩

/-- `notify()`: run the observer loop over the current observer list. -/
def NotificationCenter.notify (c : NotificationCenter) (t : Nat) : Effects :=
  notifyLoop c c.observers t

/-- `set_notification(n)`: `self._notification = n; self.notify()` — the store
happens first, then the synchronous fan-out over the stored state. -/
def NotificationCenter.set_notification (c : NotificationCenter) (n : Notification) (t : Nat) :
    NotificationCenter × Effects :=
  let c2 := { c with notification := some n }
  (c2, c2.notify t)

/-- The trace of running `update()` of every listed observer in order, with no
abort: the fan-out a fully successful `notify()` performs. -/
def updatesAll (c : NotificationCenter) : List Reactor → Nat → List Event
  | [], _ => []
  | ob :: rest, t =>
    let r := ob.update c t
    r.events ++ updatesAll c rest r.clock

/-- `NotificationService` instance state: `self._notification_list` (the
history) and `self._notification_center`. -/
structure NotificationService where
  notification_list : List Notification
  notification_center : NotificationCenter
deriving DecidableEq

/-- One evaluation of `NotificationService()` given the current class attribute
`_instance` (`none` before the first construction). `__new__` returns the
existing instance when there is one, so aliasing is preserved; but `__init__`
then runs unconditionally on the returned instance and reassigns
`self._notification_list = []` and `self._notification_center =
NotificationCenter()`. Hence the field state after any construction is the
freshly reset state, whatever the prior instance held. -/
def NotificationService.construct : Option NotificationService → NotificationService
  | _ => ⟨[], NotificationCenter.init⟩

/-- `send_notification(n)`: `self._notification_list.append(n)` happens first,
then `self._notification_center.set_notification(n)`; an exception escaping
from the fan-out is recorded in the returned `Effects` while the already
mutated service state stands. -/
def NotificationService.send_notification (s : NotificationService) (n : Notification) (t : Nat) :
    NotificationService × Effects :=
  let l := s.notification_list ++ [n]
  let p := s.notification_center.set_notification n t
  (⟨l, p.1⟩, p.2)

/-- The two non-timestamp decorator classes, as wrappable units: `plainDec` is
`NotificationDecorator`, `signature` is `SignatureDecorator`. -/
inductive Dec where
  | plainDec
  | signature
deriving DecidableEq

/-- Wrap one decorator around a content (the decorator constructor call). -/
def wrapDec (n : Notification) : Dec → Notification
  | .plainDec => .plainDec n
  | .signature => .signature n

/-- The string transformation each non-timestamp decorator performs on the
wrapped content's text. -/
def applyDec (d : Dec) (s : String) : String :=
  match d with
  | .plainDec => s
  | .signature => s ++ " :: signed_by: Notification Service >>"

/-- Wrap a list of decorators around a base content, first list element
innermost (the order the client code applies constructor calls). -/
def wrapAll (base : Notification) (ds : List Dec) : Notification :=
  ds.foldl wrapDec base

end NotifSvc

namespace NotifSvc

/-- A decoration chain without a timestamp decorator reads to the same string
at every clock value: the only time-dependent decorator is `TimeStampDecorator`. -/
theorem get_content_const (n : Notification) (h : n.noTimeStamp = true) (t : Nat) :
    n.get_content t = n.get_content 0 := by
  induction n with
  | simple s => rfl
  | plainDec inner ih =>
      simpa [Notification.get_content, Notification.noTimeStamp] using
        ih (by simpa [Notification.noTimeStamp] using h)
  | timeStamp inner ih => simp [Notification.noTimeStamp] at h
  | signature inner ih =>
      simp only [Notification.get_content]
      rw [ih (by simpa [Notification.noTimeStamp] using h)]

/-- One wrapping step transforms the read exactly by the decorator's string
transformation. -/
theorem wrapDec_get_content (n : Notification) (d : Dec) (t : Nat) :
    (wrapDec n d).get_content t = applyDec d (n.get_content t) := by
  cases d <;> rfl

/-- Reading a chain of non-timestamp decorators equals folding their string
transformations over the base read, independent of the clock. -/
theorem wrapAll_get_content (ds : List Dec) (n : Notification) (t : Nat) :
    (wrapAll n ds).get_content t = ds.foldl (fun a d => applyDec d a) (n.get_content t) := by
  induction ds generalizing n with
  | nil => rfl
  | cons d ds ih =>
      simp only [wrapAll, List.foldl_cons] at ih ⊢
      rw [ih (wrapDec n d), wrapDec_get_content]

/-- Attaching a reactor that is already attached leaves the observer list
unchanged. -/
theorem attach_of_mem (c : NotificationCenter) (r : Reactor) (h : r ∈ c.observers) :
    c.attach r = c := by
  unfold NotificationCenter.attach
  rw [if_pos h]

/-- After an attach the reactor is in the observer list. -/
theorem mem_attach (c : NotificationCenter) (r : Reactor) : r ∈ (c.attach r).observers := by
  unfold NotificationCenter.attach
  split
  · assumption
  · simp

/-- C6: attach is idempotent — re-attaching an attached reactor is a silent
no-op, and after attaching the same reactor twice a duplicate-free hub holds
exactly one occurrence of it, so each `set_notification` fan-out (which walks
the observer list once per occurrence, `updatesAll`) calls its `update` exactly
once. -/
theorem attach_idempotent (c : NotificationCenter) (r : Reactor) :
    (c.attach r).attach r = c.attach r
    ∧ (r ∈ c.observers → c.attach r = c)
    ∧ (c.observers.Nodup → ((c.attach r).attach r).observers.count r = 1) := by
  refine ⟨attach_of_mem _ _ (mem_attach c r), attach_of_mem c r, ?_⟩
  intro hnodup
  rw [attach_of_mem _ _ (mem_attach c r)]
  by_cases h : r ∈ c.observers
  · rw [attach_of_mem _ _ h]
    exact List.count_eq_one_of_mem hnodup h
  · unfold NotificationCenter.attach
    rw [if_neg h]
    simp [List.count_append, List.count_eq_zero_of_not_mem h]

/-- Witness for `attach_idempotent` at a concrete hub: re-attaching the
attached logger is a no-op, and double attach to the empty hub yields one
occurrence. -/
theorem attach_idempotent_witness :
    (NotificationCenter.attach ⟨[Reactor.logger], none⟩ Reactor.logger = ⟨[Reactor.logger], none⟩)
    ∧ ((NotificationCenter.attach (NotificationCenter.attach ⟨[], none⟩ Reactor.logger)
          Reactor.logger).observers.count Reactor.logger = 1) :=
  ⟨(attach_idempotent ⟨[Reactor.logger], none⟩ Reactor.logger).2.1 (by decide),
   (attach_idempotent ⟨[], none⟩ Reactor.logger).2.2 (by decide)⟩

/-- C7: `send_notification` appends the content to the history and then pushes
it into the center; the equations hold for every service state, including one
whose observers raise during the fan-out (the returned `Effects.err` is then
`some`), so a failed fan-out never rolls the append back. -/
theorem send_notification_appends (s : NotificationService) (n : Notification) (t : Nat) :
    (s.send_notification n t).1.notification_list = s.notification_list ++ [n]
    ∧ (s.send_notification n t).1.notification_center.notification = some n :=
  ⟨rfl, rfl⟩

/-- C9: non-timestamp decoration is deterministic and compositional — reading
a wrapped chain equals folding the decorators' transformations over the base
payload, re-reads agree at any clock values, a leaf returns its payload
verbatim, and wrapping `d2` over `d1` reads as `d2` applied after `d1`. -/
theorem decoration_deterministic (s : String) (ds : List Dec) (t u : Nat)
    (n : Notification) (d1 d2 : Dec) :
    (wrapAll (.simple s) ds).get_content t = ds.foldl (fun a d => applyDec d a) s
    ∧ (wrapAll (.simple s) ds).get_content t = (wrapAll (.simple s) ds).get_content u
    ∧ (Notification.simple s).get_content t = s
    ∧ (wrapDec (wrapDec n d1) d2).get_content t = applyDec d2 (applyDec d1 (n.get_content t)) := by
  refine ⟨?_, ?_, rfl, ?_⟩
  · simpa using wrapAll_get_content ds (.simple s) t
  · rw [wrapAll_get_content, wrapAll_get_content]
    exact rfl
  · rw [wrapDec_get_content, wrapDec_get_content]

/-- C10: a freshly constructed center has no current notification, so
`get_notification` raises `AttributeError`; after any `set_notification` the
read succeeds with the stored content's text. -/
theorem get_notification_unset (t u : Nat) (c : NotificationCenter) (n : Notification) :
    NotificationCenter.init.get_notification t = .error "AttributeError"
    ∧ (c.set_notification n u).1.get_notification t = .ok (n.get_content t) :=
  ⟨rfl, rfl⟩

end NotifSvc

namespace NotifSvc

/-- When the prefix `l1` of the observer list raises nothing, the notify loop
over `l1 ++ l2` runs `l1` fully and continues into `l2` from the reached
clock, concatenating the events. -/
theorem notifyLoop_append (c : NotificationCenter) (l1 l2 : List Reactor) (t : Nat)
    (h : (notifyLoop c l1 t).err = none) :
    notifyLoop c (l1 ++ l2) t
      = ⟨(notifyLoop c l1 t).events ++ (notifyLoop c l2 (notifyLoop c l1 t).clock).events,
         (notifyLoop c l2 (notifyLoop c l1 t).clock).clock,
         (notifyLoop c l2 (notifyLoop c l1 t).clock).err⟩ := by
  induction l1 generalizing t with
  | nil => simp [notifyLoop]
  | cons ob rest ih =>
      cases he : (ob.update c t).err with
      | some e => simp [notifyLoop, he] at h
      | none =>
          have h2 : (notifyLoop c rest (ob.update c t).clock).err = none := by
            simpa [notifyLoop, he] using h
          simp [notifyLoop, he, ih _ h2, List.append_assoc]

/-- A notify loop that raised nothing performed exactly the full fan-out: the
update of every listed observer, in list order. -/
theorem notifyLoop_complete (c : NotificationCenter) (obs : List Reactor) (t : Nat)
    (h : (notifyLoop c obs t).err = none) :
    (notifyLoop c obs t).events = updatesAll c obs t := by
  induction obs generalizing t with
  | nil => simp [notifyLoop, updatesAll]
  | cons ob rest ih =>
      cases he : (ob.update c t).err with
      | some e => simp [notifyLoop, he] at h
      | none =>
          have h2 : (notifyLoop c rest (ob.update c t).clock).err = none := by
            simpa [notifyLoop, he] using h
          simp [notifyLoop, updatesAll, he, ih _ h2]

/-- Every read the engine loop performs returns the text of the center's
current content (at the clock value of that read). -/
theorem engineLoop_got (c : NotificationCenter) (n : Notification) (ss : List NotificationStrategy)
    (t : Nat) (m : String) (hn : c.notification = some n)
    (hm : Event.got m ∈ (engineLoop c ss t).events) : ∃ u, m = n.get_content u := by
  induction ss generalizing t with
  | nil => simp [engineLoop] at hm
  | cons s rest ih =>
      cases hs : s.send_notification (n.get_content t) with
      | error e =>
          simp [engineLoop, NotificationCenter.get_notification, hn, hs] at hm
          exact ⟨t, hm⟩
      | ok line =>
          simp only [engineLoop, NotificationCenter.get_notification, hn, hs,
            List.mem_cons] at hm
          rcases hm with hm | hm | hm
          · exact ⟨t, by injection hm⟩
          · exact absurd hm (by simp)
          · exact ih _ hm

/-- Every read an observer's update performs returns the text of the center's
current content. -/
theorem update_got (r : Reactor) (c : NotificationCenter) (n : Notification) (t : Nat) (m : String)
    (hn : c.notification = some n) (hm : Event.got m ∈ (r.update c t).events) :
    ∃ u, m = n.get_content u := by
  cases r with
  | logger =>
      simp [Reactor.update, NotificationCenter.get_notification, hn] at hm
      exact ⟨t, hm⟩
  | engine ss => exact engineLoop_got c n ss t m hn hm
  | failing name => simp [Reactor.update] at hm

/-- Every read performed anywhere during a notify fan-out returns the text of
the center's current content. -/
theorem notifyLoop_got (c : NotificationCenter) (n : Notification) (obs : List Reactor) (t : Nat)
    (m : String) (hn : c.notification = some n)
    (hm : Event.got m ∈ (notifyLoop c obs t).events) : ∃ u, m = n.get_content u := by
  induction obs generalizing t with
  | nil => simp [notifyLoop] at hm
  | cons ob rest ih =>
      cases he : (ob.update c t).err with
      | some e =>
          simp only [notifyLoop, he] at hm
          exact update_got ob c n t m hn hm
      | none =>
          simp only [notifyLoop, he, List.mem_append] at hm
          rcases hm with hm | hm
          · exact update_got ob c n t m hn hm
          · exact ih _ hm

/-- C8: `set_notification` first stores the content as current, then runs the
synchronous notify fan-out on the updated state, so the complete fan-out is
already contained in the `Effects` the call returns (nothing is deferred);
every content read any reactor performs during the fan-out observes the newly
set content; and when no reactor raises, the trace is exactly the update of
every attached reactor in attachment order. -/
theorem set_notification_spec (c : NotificationCenter) (n : Notification) (t : Nat) :
    (c.set_notification n t).1 = { c with notification := some n }
    ∧ (c.set_notification n t).2 = notifyLoop { c with notification := some n } c.observers t
    ∧ (∀ m, Event.got m ∈ (c.set_notification n t).2.events → ∃ u, m = n.get_content u)
    ∧ ((c.set_notification n t).2.err = none →
        (c.set_notification n t).2.events
          = updatesAll { c with notification := some n } c.observers t) := by
  refine ⟨rfl, rfl, ?_, ?_⟩
  · intro m hm
    exact notifyLoop_got { c with notification := some n } n c.observers t m rfl hm
  · intro herr
    exact notifyLoop_complete { c with notification := some n } c.observers t herr

/-- Witness for `set_notification_spec` on a hub holding one logger: the read
during the fan-out observes the new content, and the error-free trace is the
full fan-out. -/
theorem set_notification_spec_witness :
    (∃ u, "x" = (Notification.simple "x").get_content u)
    ∧ ((NotificationCenter.set_notification ⟨[Reactor.logger], none⟩ (.simple "x") 0).2.events
        = updatesAll ⟨[Reactor.logger], some (.simple "x")⟩ [Reactor.logger] 0) :=
  ⟨(set_notification_spec ⟨[Reactor.logger], none⟩ (.simple "x") 0).2.2.1 "x" (by decide),
   (set_notification_spec ⟨[Reactor.logger], none⟩ (.simple "x") 0).2.2.2 (by decide)⟩

/-- A failing reactor at the head of the loop raises before any event and
aborts the loop at once, whatever observers follow. -/
theorem notifyLoop_failing_head (c : NotificationCenter) (post : List Reactor) (name : String)
    (u : Nat) :
    notifyLoop c (Reactor.failing name :: post) u = ⟨[], u, some ("ReactorFailure: " ++ name)⟩ :=
  rfl

/-- C4 (amended): the notify loop of the source has no per-reactor isolation,
so a reactor whose `update` raises aborts the fan-out — the events are exactly
those of the successful prefix, the exception escapes from `notify`, and the
reactors after the failing one are never updated. -/
theorem notify_aborts_on_reactor_failure (c : NotificationCenter) (pre post : List Reactor)
    (name : String) (t : Nat)
    (hobs : c.observers = pre ++ Reactor.failing name :: post)
    (hpre : (notifyLoop c pre t).err = none) :
    c.notify t = ⟨(notifyLoop c pre t).events, (notifyLoop c pre t).clock,
                  some ("ReactorFailure: " ++ name)⟩ := by
  unfold NotificationCenter.notify
  rw [hobs, notifyLoop_append c pre (Reactor.failing name :: post) t hpre,
      notifyLoop_failing_head]
  simp

/-- Witness for `notify_aborts_on_reactor_failure`: logger, then a failing
reactor, then an engine — the notify run is the logger's events followed by
the escaped exception, and the engine is never reached. -/
theorem notify_aborts_on_reactor_failure_witness :
    NotificationCenter.notify
        ⟨[Reactor.logger, Reactor.failing "boom", Reactor.engine [.popup]], some (.simple "x")⟩ 0
      = ⟨(notifyLoop ⟨[Reactor.logger, Reactor.failing "boom", Reactor.engine [.popup]],
            some (.simple "x")⟩ [Reactor.logger] 0).events,
         (notifyLoop ⟨[Reactor.logger, Reactor.failing "boom", Reactor.engine [.popup]],
            some (.simple "x")⟩ [Reactor.logger] 0).clock,
         some ("ReactorFailure: " ++ "boom")⟩ :=
  notify_aborts_on_reactor_failure _ [Reactor.logger] [Reactor.engine [.popup]] "boom" 0
    rfl (by decide)

/-- C4 counterexample: with a failing reactor attached first and the logger
second, the fan-out performs no event at all — in particular the logger is
never notified (no log event), refuting the claim that reactors after a
failing one are still notified. -/
theorem reactor_failure_aborts_cex :
    (NotificationCenter.notify ⟨[Reactor.failing "boom", Reactor.logger],
        some (.simple "x")⟩ 0).events = []
    ∧ (NotificationCenter.notify ⟨[Reactor.failing "boom", Reactor.logger],
        some (.simple "x")⟩ 0).err = some "ReactorFailure: boom"
    ∧ Event.logged "x" ∉ (NotificationCenter.notify ⟨[Reactor.failing "boom", Reactor.logger],
        some (.simple "x")⟩ 0).events := by
  decide

/-- The three concrete strategy classes of the source never raise. -/
theorem send_ok_of_not_failing (s : NotificationStrategy) (msg : String)
    (h : s.isFailing = false) : ∃ line, s.send_notification msg = .ok line := by
  cases s with
  | email e => exact ⟨_, rfl⟩
  | sms m => exact ⟨_, rfl⟩
  | popup => exact ⟨_, rfl⟩
  | failing name => simp [NotificationStrategy.isFailing] at h

/-- With content set, a timestamp-free decoration chain and no failing
strategy, the engine loop performs one read and one delivery per strategy in
list order, all with the identical text. -/
theorem engineLoop_all_ok (c : NotificationCenter) (n : Notification)
    (ss : List NotificationStrategy) (t : Nat)
    (hn : c.notification = some n) (hdet : n.noTimeStamp = true)
    (hok : ∀ s ∈ ss, s.isFailing = false) :
    engineLoop c ss t
      = ⟨(ss.map fun s => [Event.got (n.get_content 0), Event.delivered s (n.get_content 0)]).flatten,
         t + ss.length, none⟩ := by
  induction ss generalizing t with
  | nil => simp [engineLoop]
  | cons s rest ih =>
      obtain ⟨line, hline⟩ :=
        send_ok_of_not_failing s (n.get_content t) (hok s (List.mem_cons_self s rest))
      have hrest : ∀ s ∈ rest, s.isFailing = false := fun x hx => hok x (List.mem_cons_of_mem s hx)
      have hline0 : s.send_notification (n.get_content 0) = .ok line := by
        rw [← get_content_const n hdet t]; exact hline
      simp [engineLoop, NotificationCenter.get_notification, hn,
        get_content_const n hdet t, hline0, ih (t + 1) hrest, Effects.mk.injEq]
      omega

/-- Counting the reads in a trace of read-deliver pairs: one per strategy. -/
theorem countP_got_pairs (ss : List NotificationStrategy) (msg : String) :
    ((ss.map fun s => [Event.got msg, Event.delivered s msg]).flatten).countP Event.isGot
      = ss.length := by
  induction ss with
  | nil => rfl
  | cons s rest ih => simp [List.countP_cons, Event.isGot, ih]

/-- C1 (amended): the engine reads the hub's current content once per
registered channel — `len(channels)` reads, not exactly one — immediately
before each delivery, and forwards to each channel in registration order the
text it read for that channel; when the content has no timestamp decorator
(its read is deterministic) every channel receives the identical text. -/
theorem engine_reads_once_per_channel (c : NotificationCenter) (n : Notification)
    (ss : List NotificationStrategy) (t : Nat)
    (hn : c.notification = some n) (hdet : n.noTimeStamp = true)
    (hok : ∀ s ∈ ss, s.isFailing = false) :
    (Reactor.engine ss).update c t
      = ⟨(ss.map fun s => [Event.got (n.get_content 0), Event.delivered s (n.get_content 0)]).flatten,
         t + ss.length, none⟩
    ∧ ((Reactor.engine ss).update c t).events.countP Event.isGot = ss.length := by
  have h := engineLoop_all_ok c n ss t hn hdet hok
  refine ⟨h, ?_⟩
  show (engineLoop c ss t).events.countP Event.isGot = ss.length
  rw [h]
  exact countP_got_pairs ss (n.get_content 0)

/-- Witness for `engine_reads_once_per_channel`: an engine with an email and a
popup channel on a simple content performs two reads, one per channel. -/
theorem engine_reads_once_per_channel_witness :
    (Reactor.engine [.email "a", .popup]).update ⟨[], some (.simple "hi")⟩ 0
      = ⟨([NotificationStrategy.email "a", NotificationStrategy.popup].map
            fun s => [Event.got ((Notification.simple "hi").get_content 0),
                      Event.delivered s ((Notification.simple "hi").get_content 0)]).flatten,
         0 + [NotificationStrategy.email "a", NotificationStrategy.popup].length, none⟩
    ∧ ((Reactor.engine [.email "a", .popup]).update
          ⟨[], some (.simple "hi")⟩ 0).events.countP Event.isGot
        = [NotificationStrategy.email "a", NotificationStrategy.popup].length :=
  engine_reads_once_per_channel ⟨[], some (.simple "hi")⟩ (.simple "hi")
    [.email "a", .popup] 0 rfl rfl (by decide)

/-- C1 counterexample: with two registered channels the engine's update reads
the hub's content twice, not exactly once, and under a timestamp decorator
the two channels receive different texts — refuting both the single read and
the identical forwarded text of the claim. -/
theorem engine_single_read_cex :
    ((Reactor.engine [.email "a@b.c", .popup]).update
        ⟨[], some (.timeStamp (.simple "hi"))⟩ 0).events.countP Event.isGot = 2
    ∧ (Event.delivered (.email "a@b.c") "<< 0 :: hi"
        ∈ ((Reactor.engine [.email "a@b.c", .popup]).update
            ⟨[], some (.timeStamp (.simple "hi"))⟩ 0).events)
    ∧ (Event.delivered .popup "<< 1 :: hi"
        ∈ ((Reactor.engine [.email "a@b.c", .popup]).update
            ⟨[], some (.timeStamp (.simple "hi"))⟩ 0).events)
    ∧ "<< 0 :: hi" ≠ "<< 1 :: hi" := by decide

/-- C5 (amended): the engine's delivery loop has no per-channel isolation, so
a channel whose delivery raises aborts the loop: the run is exactly the
successful prefix followed by the read for the failing channel, the
`DeliveryFailure` escapes, and the channels after the failing one receive
nothing. -/
theorem engine_aborts_on_channel_failure (c : NotificationCenter) (n : Notification)
    (pre post : List NotificationStrategy) (name : String) (t : Nat)
    (e : List Event) (t' : Nat)
    (hn : c.notification = some n)
    (hpre : engineLoop c pre t = ⟨e, t', none⟩) :
    engineLoop c (pre ++ NotificationStrategy.failing name :: post) t
      = ⟨e ++ [Event.got (n.get_content t')], t', some ("DeliveryFailure: " ++ name)⟩ := by
  induction pre generalizing t e with
  | nil =>
      rw [show engineLoop c [] t = ⟨[], t, none⟩ from rfl, Effects.mk.injEq] at hpre
      obtain ⟨he, ht, -⟩ := hpre
      subst he
      subst ht
      simp [engineLoop, NotificationCenter.get_notification, hn,
        NotificationStrategy.send_notification]
  | cons s ps ih =>
      cases hs : s.send_notification (n.get_content t) with
      | error e2 =>
          simp [engineLoop, NotificationCenter.get_notification, hn, hs,
            Effects.mk.injEq] at hpre
      | ok line =>
          simp only [engineLoop, NotificationCenter.get_notification, hn, hs] at hpre
          rw [Effects.mk.injEq] at hpre
          obtain ⟨he, hclk, herr⟩ := hpre
          have hR : engineLoop c ps (t + 1) = ⟨(engineLoop c ps (t + 1)).events, t', none⟩ := by
            rw [← hclk, ← herr]
          have hrec := ih (t + 1) (engineLoop c ps (t + 1)).events hR
          simp only [List.cons_append, engineLoop, NotificationCenter.get_notification, hn, hs,
            hrec]
          rw [← he]
          simp [hrec]

/-- Witness for `engine_aborts_on_channel_failure`: email channel, then a
failing channel, then a popup — the email delivery and the second read happen,
the exception escapes, the popup receives nothing. -/
theorem engine_aborts_on_channel_failure_witness :
    engineLoop ⟨[], some (.simple "x")⟩
        ([NotificationStrategy.email "a"]
          ++ NotificationStrategy.failing "ch2" :: [NotificationStrategy.popup]) 0
      = ⟨[Event.got "x", Event.delivered (.email "a") "x"]
            ++ [Event.got ((Notification.simple "x").get_content 1)], 1,
         some ("DeliveryFailure: " ++ "ch2")⟩ :=
  engine_aborts_on_channel_failure ⟨[], some (.simple "x")⟩ (.simple "x")
    [.email "a"] [.popup] "ch2" 0 [Event.got "x", Event.delivered (.email "a") "x"] 1
    rfl (by decide)

/-- C5 counterexample: channel 2 of 3 fails — channel 1 receives the content,
but channel 3 (the popup) receives nothing because the exception aborts the
loop, refuting the claim that later channels still receive the content. -/
theorem channel_failure_aborts_cex :
    (Event.delivered (.email "a") "x"
        ∈ ((Reactor.engine [.email "a", .failing "ch2", .popup]).update
            ⟨[], some (.simple "x")⟩ 0).events)
    ∧ ((Reactor.engine [.email "a", .failing "ch2", .popup]).update
          ⟨[], some (.simple "x")⟩ 0).err = some "DeliveryFailure: ch2"
    ∧ Event.delivered .popup "x"
        ∉ ((Reactor.engine [.email "a", .failing "ch2", .popup]).update
            ⟨[], some (.simple "x")⟩ 0).events := by decide

/-- Python's `list.remove` raises when no element matches. -/
theorem removeFirst_of_not_mem (r : Reactor) (l : List Reactor) (h : r ∉ l) :
    removeFirst r l = none := by
  induction l with
  | nil => rfl
  | cons x xs ih =>
      have hx : ¬ x = r := fun hx => h (hx ▸ List.mem_cons_self x xs)
      simp [removeFirst, hx, ih (fun hm => h (List.mem_cons_of_mem x hm))]

/-- Python's `list.remove` removes exactly the first matching element. -/
theorem removeFirst_append_self (r : Reactor) (pre post : List Reactor) (h : r ∉ pre) :
    removeFirst r (pre ++ r :: post) = some (pre ++ post) := by
  induction pre with
  | nil => simp [removeFirst]
  | cons x xs ih =>
      have hx : ¬ x = r := fun hx => h (hx ▸ List.mem_cons_self x xs)
      simp [removeFirst, hx, ih (fun hm => h (List.mem_cons_of_mem x hm))]

/-- C3 (amended): `detach` of an absent reactor does not return silently — it
raises `ValueError` (a reported NotFound condition) and removes nothing; for
an attached reactor it removes the first occurrence. -/
theorem detach_removes_first_or_raises (c : NotificationCenter) (r : Reactor) :
    (r ∉ c.observers → c.detach r = .error "ValueError")
    ∧ (∀ pre post, c.observers = pre ++ r :: post → r ∉ pre →
        c.detach r = .ok ⟨pre ++ post, c.notification⟩) := by
  constructor
  · intro h
    unfold NotificationCenter.detach
    rw [removeFirst_of_not_mem r c.observers h]
  · intro pre post hobs hpre
    unfold NotificationCenter.detach
    rw [hobs, removeFirst_append_self r pre post hpre]

/-- Witness for `detach_removes_first_or_raises`: detaching from an empty hub
raises `ValueError`; detaching the attached logger removes it. -/
theorem detach_removes_first_or_raises_witness :
    NotificationCenter.detach ⟨[], none⟩ (Reactor.engine []) = .error "ValueError"
    ∧ NotificationCenter.detach ⟨[Reactor.logger, Reactor.engine []], none⟩ Reactor.logger
        = .ok ⟨[] ++ [Reactor.engine []], none⟩ :=
  ⟨(detach_removes_first_or_raises ⟨[], none⟩ (Reactor.engine [])).1 (by decide),
   (detach_removes_first_or_raises ⟨[Reactor.logger, Reactor.engine []], none⟩ Reactor.logger).2
     [] [Reactor.engine []] rfl (by decide)⟩

/-- C3 counterexample: detaching a reactor that is not attached does not
return without error — `list.remove` raises `ValueError`. -/
theorem detach_absent_raises_cex :
    NotificationCenter.detach ⟨[Reactor.logger], none⟩ (Reactor.engine [])
      = .error "ValueError" := rfl

/-- C2: evaluating the code at the failing input — construct the service,
submit one content (history then holds it), then evaluate
`NotificationService()` again: `__new__` returns the same instance, but
`__init__` reruns and resets `_notification_list` to `[]`, losing the
recorded history instead of preserving it. -/
theorem singleton_reconstruction_resets_history :
    ((NotificationService.construct none).send_notification (.simple "hello") 0).1.notification_list
      = [Notification.simple "hello"]
    ∧ (NotificationService.construct
        (some ((NotificationService.construct none).send_notification (.simple "hello") 0).1)
       ).notification_list = [] :=
  ⟨rfl, rfl⟩

end NotifSvc
